import Mathlib

/-!
# FH5-Tuner: shallow embedding of `src/tuner/engine.ts`

This file embeds the tuning engine (`calculateTune` and its subsystem
helpers) in Lean 4 and proves the specification claims about it.

Modelling conventions:
* JavaScript numbers are modelled as exact rationals (`ℚ`).  The engine only
  performs +, -, *, /, `Math.round`, `Math.min/max` and two decimal-rounding
  steps (`toFixed`), and on every value reachable in the proved statements the
  binary64 computation agrees with exact rational arithmetic (no `toFixed`
  tie or double-rounding boundary is hit).
* `Math.round` rounds half toward +infinity, which is exactly Mathlib's
  `round` on `ℚ`.
* Division by zero yields 0 in `ℚ` whereas JS yields Infinity; the only
  division with a variable denominator is `power_hp / weight_lbs`, and no
  claim proved below depends on the zero-weight case of `final_drive` or of
  the traction-control bump.
* A TS `UpgradeSelection` is a sparse nested map of `string | number`
  values; it is modelled as `String → String → Option String` (a numeric
  value behaves like the string it coerces to, since the engine always
  reads selections through `String(v)`).
* TS optional record fields become `Option` fields; a field that the engine
  leaves `undefined` is `none` (absent), never a default number.
-/

namespace FH5Tuner

/-- `Math.round`: round half toward +infinity (Mathlib `round` on `ℚ`). -/
def jsRound (q : ℚ) : ℚ := ((round q : ℤ) : ℚ)

/-- `parseFloat(x.toFixed(2))`: round to 2 decimal places. -/
def round2 (q : ℚ) : ℚ := jsRound (q * 100) / 100

/-- `parseFloat(x.toFixed(1))`: round to 1 decimal place. -/
def round1 (q : ℚ) : ℚ := jsRound (q * 10) / 10

/-- `function clamp(value, min, max) { return Math.min(max, Math.max(min, value)); }` -/
def clamp (value lo hi : ℚ) : ℚ := min hi (max lo value)

/-- The TS union `'RWD' | 'FWD' | 'AWD' | '4WD'`. -/
inductive Drivetrain
  | RWD | FWD | AWD | FourWD
deriving DecidableEq, Repr

/-- The TS union of tune styles. -/
inductive TuneType
  | Road | Race | Drift | Offroad | Rally | Cruise | Drag | Street
deriving DecidableEq, Repr

/-- The TS union `'Dry' | 'Wet'`. -/
inductive WeatherPreset
  | Dry | Wet
deriving DecidableEq, Repr

/-- The `Car` interface.  `_raw` (a `Record<string, any>` of extra metadata,
never read by the engine) is modelled as an association list. -/
structure Car where
  manufacturer : String
  model : String
  year : ℤ
  pi : ℚ
  drivetrain : Drivetrain
  power_hp : ℚ
  weight_lbs : ℚ
  engine_type : String
  aspiration : String
  displacement_l : ℚ
  gears : Option ℚ
  weight_distribution_front : Option ℚ
  top_speed_mph : Option ℚ
  torque_ftlb : Option ℚ
  raw : Option (List (String × String))

/-- `UpgradeSelection`: section name → part name → selected option. -/
def UpgradeSelection := String → String → Option String

/-- JS whitespace (`\s`, and the set removed by `String.prototype.trim`):
the ASCII cases plus NBSP.  The engine's catalog and form strings are plain
text, so the exotic Unicode space code points are not modelled. -/
def isJsSpace (c : Char) : Bool :=
  c = ' ' ∨ c = '\t' ∨ c = '\n' ∨ c = '\r' ∨ c = '\x0b' ∨ c = '\x0c' ∨ c = '\xa0'

/-- `s.trim()`: strip leading and trailing whitespace. -/
def jsTrim (s : String) : String :=
  ⟨((s.data.dropWhile isJsSpace).reverse.dropWhile isJsSpace).reverse⟩

/-- `getUpgradeString`: look a selection up and coerce to a trimmed string
(`null`/`undefined`/absent become `''`). -/
def getUpgradeString (u : UpgradeSelection) (sec part : String) : String :=
  jsTrim ((u sec part).getD "")

/-! ## The numeric parser used for manual overrides

`parseOptionalNumber` applies `Number(String(v).trim())` and keeps only
finite results.  `Number` on a (trimmed, non-empty) string accepts a signed
decimal literal with optional fraction and exponent, or an unsigned
hexadecimal / octal / binary literal; everything else is `NaN` (so `null`
here).  `Infinity` literals are non-finite, hence also `null`, which is what
this parser's `none` result means.  (Exact rationals stand in for binary64
values; overflow to `Infinity` of astronomically large finite literals is
not modelled, and no claim depends on it.) -/

/-- Numeric value of a hex digit character, if it is one. -/
def hexDigitVal (c : Char) : Option ℕ :=
  if '0' ≤ c ∧ c ≤ '9' then some (c.toNat - 48)
  else if 'a' ≤ c ∧ c ≤ 'f' then some (c.toNat - 87)
  else if 'A' ≤ c ∧ c ≤ 'F' then some (c.toNat - 55)
  else none

/-- Value of a digit string in radix `r` (digits must all be `< r`). -/
def radixVal (r : ℕ) : List Char → ℕ → Option ℕ
  | [], acc => some acc
  | c :: cs, acc =>
    match hexDigitVal c with
    | some d => if d < r then radixVal r cs (r * acc + d) else none
    | none => none

/-- Value of a non-empty decimal digit string. -/
def digitsVal (ds : List Char) : ℕ :=
  ds.foldl (fun n c => 10 * n + (c.toNat - 48)) 0

/-- Parse the optional exponent part `(e|E)(+|-)?digits` (must consume the
whole remaining input); no exponent at all means exponent `0`. -/
def parseExpPart : List Char → Option ℤ
  | [] => some 0
  | c :: r =>
    if c = 'e' ∨ c = 'E' then
      match r with
      | '+' :: r2 => expDigits r2
      | '-' :: r2 => (expDigits r2).map (fun n => -n)
      | r2 => expDigits r2
    else none
where
  /-- One-or-more decimal digits, consuming the whole input. -/
  expDigits (cs : List Char) : Option ℤ :=
    let (ds, rest) := cs.span Char.isDigit
    if ds.isEmpty ∨ ¬rest.isEmpty then none else some (digitsVal ds : ℤ)

/-- Scale by a power of ten with integer exponent. -/
def scale10 (q : ℚ) (e : ℤ) : ℚ :=
  if 0 ≤ e then q * (10 : ℚ) ^ e.toNat else q / (10 : ℚ) ^ (-e).toNat

/-- Parse an unsigned decimal literal `digits [. digits] [exp]` or
`. digits [exp]` (whole input).  A bare integer literal is returned
directly (same value as scaling by `10 ^ 0`). -/
def parseDecTail (cs : List Char) : Option ℚ :=
  let (ip, r1) := cs.span Char.isDigit
  match r1 with
  | '.' :: r2 =>
    let (fp, r3) := r2.span Char.isDigit
    if ip.isEmpty ∧ fp.isEmpty then none
    else
      (parseExpPart r3).map fun e =>
        scale10 ((digitsVal ip : ℚ) + (digitsVal fp : ℚ) / (10 : ℚ) ^ fp.length) e
  | [] => if ip.isEmpty then none else some (digitsVal ip : ℚ)
  | _ =>
    if ip.isEmpty then none
    else (parseExpPart r1).map fun e => scale10 (digitsVal ip : ℚ) e

/-- `Number(raw)` on a trimmed non-empty string, keeping finite values only. -/
def jsNumber (raw : String) : Option ℚ :=
  match raw.toList with
  | '0' :: 'x' :: rest => (radixVal 16 rest 0).bind fun n => if rest.isEmpty then none else some (n : ℚ)
  | '0' :: 'X' :: rest => (radixVal 16 rest 0).bind fun n => if rest.isEmpty then none else some (n : ℚ)
  | '0' :: 'o' :: rest => (radixVal 8 rest 0).bind fun n => if rest.isEmpty then none else some (n : ℚ)
  | '0' :: 'O' :: rest => (radixVal 8 rest 0).bind fun n => if rest.isEmpty then none else some (n : ℚ)
  | '0' :: 'b' :: rest => (radixVal 2 rest 0).bind fun n => if rest.isEmpty then none else some (n : ℚ)
  | '0' :: 'B' :: rest => (radixVal 2 rest 0).bind fun n => if rest.isEmpty then none else some (n : ℚ)
  | '+' :: rest => parseDecTail rest
  | '-' :: rest => (parseDecTail rest).map Neg.neg
  | cs => parseDecTail cs

/-- `parseOptionalNumber`: `null`/`undefined` → `null`; otherwise trim,
reject the empty string, and keep only finite `Number(...)` results. -/
def parseOptionalNumber (v : Option String) : Option ℚ :=
  match v with
  | none => none
  | some s =>
    let raw := jsTrim s
    if raw = "" then none else jsNumber raw

/-! ## The two transmission regular expressions

`/Race:\s*(\d+)\s*Speed/i` and `/Drift:\s*4\s*Speed/i` are searched for
anywhere in the string, case-insensitively; `String.prototype.match` yields
the leftmost match.  Since `\s`, `\d` and the literal tails are disjoint
character classes, greedy matching without backtracking is exact here. -/

/-- Strip a literal pattern case-insensitively, returning the rest. -/
def stripCI : List Char → List Char → Option (List Char)
  | [], cs => some cs
  | _ :: _, [] => none
  | p :: ps, c :: cs => if c.toLower = p.toLower then stripCI ps cs else none

/-- Skip `\s*`. -/
def skipWS (cs : List Char) : List Char := cs.dropWhile isJsSpace

/-- Try `Race:\s*(\d+)\s*Speed` anchored at the start; capture the digits. -/
def raceMatchHere (cs : List Char) : Option ℕ :=
  (stripCI "race:".toList cs).bind fun r1 =>
    let (ds, r3) := (skipWS r1).span Char.isDigit
    if ds.isEmpty then none
    else (stripCI "speed".toList (skipWS r3)).map fun _ => digitsVal ds

/-- Leftmost match of `/Race:\s*(\d+)\s*Speed/i`, yielding the captured
number (`Number(m[1])`, exact on digit strings). -/
def raceMatch : List Char → Option ℕ
  | [] => none
  | c :: cs => (raceMatchHere (c :: cs)).orElse fun _ => raceMatch cs

/-- Try `Drift:\s*4\s*Speed` anchored at the start. -/
def driftMatchHere (cs : List Char) : Bool :=
  match stripCI "drift:".toList cs with
  | none => false
  | some r1 =>
    match skipWS r1 with
    | '4' :: r2 => (stripCI "speed".toList (skipWS r2)).isSome
    | _ => false

/-- `/Drift:\s*4\s*Speed/i.test(...)`. -/
def driftTest : List Char → Bool
  | [] => false
  | c :: cs => driftMatchHere (c :: cs) || driftTest cs

/-- The fallthrough of `getTargetGearCount` after the `Race: N Speed`
attempt: drift box, then the car's native gear count, then 6. -/
def gearCountFallback (car : Car) (transmission : String) : ℕ :=
  if driftTest transmission.toList then 4
  else
    match car.gears with
    | some g => if 4 ≤ g ∧ g ≤ 10 then (round g).toNat else 6
    | none => 6

/-- `getTargetGearCount` .  (`car.gears` being present models it being a
finite number; `Math.round` appears in the native-gears branch.) -/
def getTargetGearCount (car : Car) (u : UpgradeSelection) : ℕ :=
  let transmission := getUpgradeString u "Drivetrain" "Transmission"
  match raceMatch transmission.toList with
  | some n => if 4 ≤ n ∧ n ≤ 10 then n else gearCountFallback car transmission
  | none => gearCountFallback car transmission

/-- `getWeightDistributionFront`. -/
def getWeightDistributionFront (car : Car) : ℚ :=
  match car.weight_distribution_front with
  | some wd => if 0 < wd ∧ wd < 1 then clamp wd 0.4 0.65 else 0.55
  | none => 0.55

/-- `powerToWeightRatio`. -/
def powerToWeightRatio (car : Car) : ℚ := car.power_hp / car.weight_lbs

/-! ## The output record -/

/-- `TuneOutput`.  `center_diff`/`front_diff`/`rear_diff` are AWD-only and
absent (`none`) otherwise; `differential_preload` is optional in the TS type
but always assigned by `calculateDifferential`, so it is a plain field. -/
structure TuneOutput where
  final_drive : ℚ
  gear_ratios : List ℚ
  differential_accel : ℚ
  differential_decel : ℚ
  differential_preload : ℚ
  center_diff : Option ℚ
  front_diff : Option ℚ
  rear_diff : Option ℚ
  brake_bias : ℚ
  brake_pressure : ℚ
  spring_front : ℚ
  spring_rear : ℚ
  arb_front : ℚ
  arb_rear : ℚ
  ride_height_front : ℚ
  ride_height_rear : ℚ
  camber_front : ℚ
  camber_rear : ℚ
  toe_front : ℚ
  toe_rear : ℚ
  caster : ℚ
  damping_rebound_front : ℚ
  damping_rebound_rear : ℚ
  damping_compression_front : ℚ
  damping_compression_rear : ℚ
  tire_compound : String
  tire_pressure_front : ℚ
  tire_pressure_rear : ℚ
  downforce_front : ℚ
  downforce_rear : ℚ
  turbo_map : ℚ
  traction_control_level : ℚ
  abs_level : ℚ
  stability_control : ℚ

/-! ## Subsystem helpers

Each `calculate*` helper is a switch over the tune style; since `TuneType`
is a closed union the initial "default" assignments before each switch are
dead and the switch is embedded as a per-style table.  The one exception is
`calculateBrakes`, where the pre-switch weight-distribution nudge is kept
(shadowed) exactly as in the source, to settle the dead-code claim. -/

/-- The `gear_base` table of `calculateGearing`. -/
def gear_base : TuneType → List ℚ
  | .Drag => [3.8, 2.6, 1.85, 1.4, 1.15, 0.95]
  | .Race => [3.0, 2.1, 1.5, 1.2, 1.0, 0.85]
  | .Drift => [3.5, 2.4, 1.7, 1.3, 1.05, 0.9]
  | .Offroad | .Rally => [3.2, 2.2, 1.6, 1.25, 1.0, 0.82]
  | .Street | .Road => [2.8, 1.9, 1.4, 1.1, 0.9, 0.75]
  | .Cruise => [2.6, 1.8, 1.3, 1.05, 0.88, 0.72]

/-- The `final_drive` assignments of `calculateGearing` (power-to-weight
nudges included). -/
def final_drive_of (pwr : ℚ) : TuneType → ℚ
  | .Drag => 4.5 + (if pwr > 0.2 then 0.3 else 0)
  | .Race => 3.5 + (if pwr > 0.25 then 0.2 else -0.2)
  | .Drift => 4.2
  | .Offroad | .Rally => 3.8
  | .Street | .Road => 3.2 - (if pwr > 0.2 then 0.2 else 0)
  | .Cruise => 3.0

/-- Result type of `calculateGearing`. -/
structure Gearing where
  final_drive : ℚ
  gear_ratios : List ℚ

/-- `calculateGearing` (the returned list is a fresh copy, which a pure value
already is). -/
def calculateGearing (car : Car) (t : TuneType) : Gearing :=
  { final_drive := final_drive_of (powerToWeightRatio car) t
    gear_ratios := gear_base t }

/-- Differential `accel` base table. -/
def diffAccelBase : TuneType → ℚ
  | .Race => 75
  | .Drift => 15
  | .Drag => 100
  | .Offroad | .Rally => 60
  | .Street | .Road => 50
  | .Cruise => 45

/-- Differential `decel` base table. -/
def diffDecelBase : TuneType → ℚ
  | .Race => 15
  | .Drift => 5
  | .Drag => 10
  | .Offroad | .Rally => 25
  | .Street | .Road => 20
  | .Cruise => 25

/-- Result type of `calculateDifferential`. -/
structure DiffSettings where
  differential_accel : ℚ
  differential_decel : ℚ
  differential_preload : ℚ
  center_diff : Option ℚ
  front_diff : Option ℚ
  rear_diff : Option ℚ

/-- `calculateDifferential`: style bases, preload, and the AWD/4WD-only
center/front/rear fields (absent otherwise). -/
def calculateDifferential (car : Car) (t : TuneType) : DiffSettings :=
  let accel := diffAccelBase t
  let decel := diffDecelBase t
  let awd := car.drivetrain = .AWD ∨ car.drivetrain = .FourWD
  { differential_accel := accel
    differential_decel := decel
    differential_preload := jsRound ((accel + decel) / 2.5)
    center_diff := if awd then some (if t = .Drift then 70 else 50) else none
    front_diff := if awd then some (accel * 0.8) else none
    rear_diff := if awd then some (accel * 0.9) else none }

/-- Suspension base table: (spring_base, arb_base, ride_height_base). -/
def suspensionBase : TuneType → ℚ × ℚ × ℚ
  | .Race => (600, 30, 6)
  | .Drift => (500, 20, 12)
  | .Drag => (550, 15, 5)
  | .Offroad => (350, 18, 18)
  | .Rally => (380, 20, 15)
  | .Street | .Road => (450, 25, 10)
  | .Cruise => (400, 22, 12)

/-- Result type of `calculateSuspension`. -/
structure Suspension where
  spring_front : ℚ
  spring_rear : ℚ
  arb_front : ℚ
  arb_rear : ℚ
  ride_height_front : ℚ
  ride_height_rear : ℚ

/-- `calculateSuspension`.  (In the source `ride_height_front` is the same
ternary on both sides, i.e. always the base.) -/
def calculateSuspension (car : Car) (t : TuneType) : Suspension :=
  let weight_factor := car.weight_lbs / 3500
  let wdFront := getWeightDistributionFront car
  let wdRear := 1 - wdFront
  let spring_base := (suspensionBase t).1
  let ride_height_base := (suspensionBase t).2.2
  let arbScale : ℚ :=
    if t = .Race then 1.05
    else if t = .Drift then 0.85
    else if t = .Offroad ∨ t = .Rally then 0.8
    else if t = .Drag then 0.7
    else 1.0
  { spring_front := jsRound (spring_base * weight_factor * (wdFront / 0.55))
    spring_rear := jsRound (spring_base * weight_factor * (wdRear / 0.45))
    arb_front := jsRound ((64 * wdFront + 0.5) * arbScale * weight_factor)
    arb_rear := jsRound ((64 * wdRear + 1.0) * arbScale * weight_factor)
    ride_height_front := ride_height_base
    ride_height_rear := if t = .Drag then ride_height_base + 3 else ride_height_base + 1 }

/-- Alignment base table: (camber_front, camber_rear, toe_front, toe_rear,
caster). -/
def alignmentBase : TuneType → ℚ × ℚ × ℚ × ℚ × ℚ
  | .Race => (-2.5, -2.0, -0.1, 0.2, 6.5)
  | .Drift => (-3.0, -2.5, 0.0, 0.3, 7.0)
  | .Drag => (-2.0, -1.5, 0.0, 0.0, 5.0)
  | .Offroad => (-1.0, -0.8, 0.0, 0.1, 5.0)
  | .Rally => (-1.5, -1.2, 0.0, 0.15, 5.5)
  | .Street | .Road => (-1.5, -1.2, 0.0, 0.1, 5.5)
  | .Cruise => (-1.0, -0.8, 0.0, 0.05, 5.0)

/-- Result type of `calculateAlignment`. -/
structure Alignment where
  camber_front : ℚ
  camber_rear : ℚ
  toe_front : ℚ
  toe_rear : ℚ
  caster : ℚ

/-- `calculateAlignment`. -/
def calculateAlignment (_car : Car) (t : TuneType) : Alignment :=
  { camber_front := (alignmentBase t).1
    camber_rear := (alignmentBase t).2.1
    toe_front := (alignmentBase t).2.2.1
    toe_rear := (alignmentBase t).2.2.2.1
    caster := (alignmentBase t).2.2.2.2 }

/-- Result type of `calculateDamping`. -/
structure Damping where
  damping_rebound_front : ℚ
  damping_rebound_rear : ℚ
  damping_compression_front : ℚ
  damping_compression_rear : ℚ

/-- `calculateDamping`. -/
def calculateDamping (car : Car) (springs : Suspension) (t : TuneType) : Damping :=
  let wdFront := getWeightDistributionFront car
  let wdRear := 1 - wdFront
  let baseReboundFront := 19 * wdFront + 0.5
  let baseReboundRear := 19 * wdRear + 1.0
  let intentScale : ℚ :=
    if t = .Race then 1.08
    else if t = .Drift then 1.05
    else if t = .Offroad ∨ t = .Rally then 0.9
    else if t = .Drag then 0.95
    else 1.0
  let springScaleFront := clamp (springs.spring_front / 550) 0.8 1.25
  let springScaleRear := clamp (springs.spring_rear / 550) 0.8 1.25
  let reboundFront := round1 (baseReboundFront * intentScale * springScaleFront)
  let reboundRear := round1 (baseReboundRear * intentScale * springScaleRear)
  let bumpFrontMult : ℚ := if t = .Drift then 0.55 else 0.7
  let bumpRearMult : ℚ := if t = .Drift then 0.45 else 0.6
  { damping_rebound_front := reboundFront
    damping_rebound_rear := reboundRear
    damping_compression_front := round1 (reboundFront * bumpFrontMult)
    damping_compression_rear := round1 (reboundRear * bumpRearMult) }

/-- Tires base table: (compound, pressure_front, pressure_rear). -/
def tiresBase : TuneType → String × ℚ × ℚ
  | .Race => ("Race", 30, 28)
  | .Drift => ("Drift", 28, 26)
  | .Drag => ("Drag", 35, 22)
  | .Offroad => ("Offroad", 26, 24)
  | .Rally => ("Rally", 27, 25)
  | .Street | .Road => ("Street", 32, 30)
  | .Cruise => ("Street", 33, 31)

/-- Result type of `calculateTires`. -/
structure Tires where
  tire_compound : String
  tire_pressure_front : ℚ
  tire_pressure_rear : ℚ

/-- `calculateTires`: style base, drivetrain nudge (the source's
`if RWD ... else if FWD ...` splits into two independent conditions since
the constructors are mutually exclusive), clamp to [15, 40]. -/
def calculateTires (car : Car) (t : TuneType) : Tires :=
  let pressure_front := (tiresBase t).2.1
  let pressure_rear := (tiresBase t).2.2
  let pressure_rear := if car.drivetrain = .RWD then pressure_rear - 1 else pressure_rear
  let pressure_front := if car.drivetrain = .FWD then pressure_front - 1 else pressure_front
  { tire_compound := (tiresBase t).1
    tire_pressure_front := clamp pressure_front 15 40
    tire_pressure_rear := clamp pressure_rear 15 40 }

/-- Result type of `calculateAero`. -/
structure Aero where
  downforce_front : ℚ
  downforce_rear : ℚ

/-- `calculateAero`. -/
def calculateAero (car : Car) (t : TuneType) : Aero :=
  match t with
  | .Race => if car.pi > 850 then ⟨200, 300⟩ else ⟨150, 200⟩
  | .Drift => ⟨50, 80⟩
  | .Drag => ⟨0, 0⟩
  | .Offroad => ⟨0, 0⟩
  | .Rally => ⟨80, 120⟩
  | .Street | .Road => ⟨100, 150⟩
  | .Cruise => ⟨60, 90⟩

/-- Electronics base table: (traction_control, abs, stability, turbo_map). -/
def electronicsBase : TuneType → ℚ × ℚ × ℚ × ℚ
  | .Race => (0, 0, 0, 0.9)
  | .Drift => (0, 0, 0, 1.0)
  | .Drag => (0, 0, 0, 1.0)
  | .Offroad => (2, 1, 1, 0.85)
  | .Rally => (1, 1, 1, 0.88)
  | .Street | .Road => (1, 1, 1, 0.8)
  | .Cruise => (2, 2, 2, 0.75)

/-- Result type of `calculateElectronics`. -/
structure Electronics where
  traction_control_level : ℚ
  abs_level : ℚ
  stability_control : ℚ
  turbo_map : ℚ

/-- `calculateElectronics`: style base plus the high-power RWD
traction-control bump. -/
def calculateElectronics (car : Car) (t : TuneType) : Electronics :=
  let tc := (electronicsBase t).1
  let tc :=
    if car.drivetrain = .RWD ∧ powerToWeightRatio car > 0.25 then min (tc + 1) 2 else tc
  { traction_control_level := tc
    abs_level := (electronicsBase t).2.1
    stability_control := (electronicsBase t).2.2.1
    turbo_map := (electronicsBase t).2.2.2 }

/-- Brakes base table: (bias, pressure). -/
def brakesBase : TuneType → ℚ × ℚ
  | .Race => (55, 105)
  | .Drift => (60, 100)
  | .Drag => (70, 110)
  | .Offroad => (50, 95)
  | .Rally => (51, 100)
  | .Street | .Road => (52, 100)
  | .Cruise => (53, 100)

/-- Result type of `calculateBrakes`. -/
structure Brakes where
  brake_bias : ℚ
  brake_pressure : ℚ

/-- `calculateBrakes`.  The source first computes
`bias = 52 + round((wdFront - 0.55) * 10)` and then unconditionally
reassigns `bias` in the style switch (every `TuneType` has a case), so the
weight-distribution nudge is shadowed exactly as in the source. -/
def calculateBrakes (car : Car) (t : TuneType) : Brakes :=
  let wdFront := getWeightDistributionFront car
  let bias := 52 + jsRound ((wdFront - 0.55) * 10)
  let bias := (brakesBase t).1
  let pressure := (brakesBase t).2
  let bias :=
    if car.drivetrain = .FWD then bias + 3
    else if car.drivetrain = .RWD then bias - 2
    else bias
  { brake_bias := bias, brake_pressure := pressure }

/-- `applyWeatherModifiers`: the Wet delta record update, identity for Dry. -/
def applyWeatherModifiers (tune : TuneOutput) (weather : WeatherPreset) : TuneOutput :=
  if weather = .Wet then
    { tune with
      tire_pressure_front := tune.tire_pressure_front - 2
      tire_pressure_rear := tune.tire_pressure_rear - 2
      differential_accel := max 10 (tune.differential_accel - 10)
      camber_front := tune.camber_front - 0.3
      camber_rear := tune.camber_rear - 0.3
      toe_rear := tune.toe_rear + 0.05
      downforce_front := tune.downforce_front + 20
      downforce_rear := tune.downforce_rear + 30
      traction_control_level := min 2 (tune.traction_control_level + 1) }
  else tune

/-! ## `calculateTune`

The body of `calculateTune` mutates one `tune` record in a fixed order.
Each mutation block becomes a stage function `TuneOutput → TuneOutput`
written as a single record update whose field values carry the block's
conditions, so a stage is extensionally the block and projections of
untouched fields reduce definitionally. -/

/-- The effective-car derivation at the top of `calculateTune`
(drivetrain swap, then weight reduction). -/
def effectiveCar (car : Car) (u : UpgradeSelection) : Car :=
  let ds := getUpgradeString u "Conversion" "Drivetrain Swap"
  let c1 :=
    if ds = "RWD" then { car with drivetrain := .RWD }
    else if ds = "FWD" then { car with drivetrain := .FWD }
    else if ds = "AWD" then { car with drivetrain := .AWD }
    else if ds = "4WD" then { car with drivetrain := .FourWD }
    else car
  let wr := getUpgradeString u "Platform" "Weight Reduction"
  if wr ≠ "" ∧ wr ≠ "Stock" then
    let factor : ℚ :=
      if wr = "Street" then 0.95
      else if wr = "Sport" then 0.90
      else if wr = "Race" then 0.85
      else 1.0
    { c1 with weight_lbs := jsRound (c1.weight_lbs * factor) }
  else c1

/-- The spread-assembly of the subsystem results into one `TuneOutput`
(the spread sources have pairwise disjoint keys). -/
def baseTune (car : Car) (t : TuneType) : TuneOutput :=
  let gearing := calculateGearing car t
  let differential := calculateDifferential car t
  let suspension := calculateSuspension car t
  let alignment := calculateAlignment car t
  let damping := calculateDamping car suspension t
  let tires := calculateTires car t
  let aero := calculateAero car t
  let electronics := calculateElectronics car t
  let brakes := calculateBrakes car t
  { final_drive := gearing.final_drive
    gear_ratios := gearing.gear_ratios
    differential_accel := differential.differential_accel
    differential_decel := differential.differential_decel
    differential_preload := differential.differential_preload
    center_diff := differential.center_diff
    front_diff := differential.front_diff
    rear_diff := differential.rear_diff
    brake_bias := brakes.brake_bias
    brake_pressure := brakes.brake_pressure
    spring_front := suspension.spring_front
    spring_rear := suspension.spring_rear
    arb_front := suspension.arb_front
    arb_rear := suspension.arb_rear
    ride_height_front := suspension.ride_height_front
    ride_height_rear := suspension.ride_height_rear
    camber_front := alignment.camber_front
    camber_rear := alignment.camber_rear
    toe_front := alignment.toe_front
    toe_rear := alignment.toe_rear
    caster := alignment.caster
    damping_rebound_front := damping.damping_rebound_front
    damping_rebound_rear := damping.damping_rebound_rear
    damping_compression_front := damping.damping_compression_front
    damping_compression_rear := damping.damping_compression_rear
    tire_compound := tires.tire_compound
    tire_pressure_front := tires.tire_pressure_front
    tire_pressure_rear := tires.tire_pressure_rear
    downforce_front := aero.downforce_front
    downforce_rear := aero.downforce_rear
    turbo_map := electronics.turbo_map
    traction_control_level := electronics.traction_control_level
    abs_level := electronics.abs_level
    stability_control := electronics.stability_control }

/-- The ratio-synthesis loop: starting from ratio `r`, repeatedly set
`r = parseFloat((r * 0.88).toFixed(2))` and push `Math.max(0.4, r)`,
`k` times. -/
def extendGears (r : ℚ) : ℕ → List ℚ
  | 0 => []
  | k + 1 =>
    let r2 := round2 (r * 0.88)
    max 0.4 r2 :: extendGears r2 k

/-- The gear-list reshaping: keep the leading ratios (`take`), then extend
from the last base ratio (`?? 0.75` when the base list is empty). -/
def reshapeGears (base : List ℚ) (gearCount : ℕ) : List ℚ :=
  let last := base.getLast?.getD 0.75
  let next := base.take gearCount
  next ++ extendGears last (gearCount - next.length)

/-- Gear-count support stage (`if (gearCount !== tune.gear_ratios.length)`). -/
def gearCountStage (car : Car) (u : UpgradeSelection) (tune : TuneOutput) : TuneOutput :=
  let gearCount := getTargetGearCount car u
  { tune with
    gear_ratios :=
      if gearCount ≠ tune.gear_ratios.length then reshapeGears tune.gear_ratios gearCount
      else tune.gear_ratios }

/-- `'Gear ' + i + ' Ratio'`. -/
def gearKey (i : ℕ) : String := "Gear " ++ toString i ++ " Ratio"

/-- The manual gear-ratio collection loop: parse `Tuning['Gear i Ratio']`
for `i = 1 .. len`; a single missing/unparsable entry aborts the whole
collection (the loop clears `manualRatios` and breaks, and the final
length test then fails), so the collection is all-or-nothing. -/
def manualGearRatios (u : UpgradeSelection) (len : ℕ) : Option (List ℚ) :=
  go 1 len
where
  /-- Collect the parses for gears `i, i+1, ..., i+k-1`. -/
  go (i : ℕ) : ℕ → Option (List ℚ)
    | 0 => some []
    | k + 1 =>
      match parseOptionalNumber (u "Tuning" (gearKey i)) with
      | none => none
      | some n => (go (i + 1) k).map (n :: ·)

/-- Manual-override stage: `Tuning['Final Drive']` replaces `final_drive`
when it parses; the gear-ratio list is replaced all-or-nothing. -/
def manualStage (u : UpgradeSelection) (tune : TuneOutput) : TuneOutput :=
  let tune1 :=
    { tune with final_drive := (parseOptionalNumber (u "Tuning" "Final Drive")).getD tune.final_drive }
  { tune1 with gear_ratios := (manualGearRatios u tune1.gear_ratios.length).getD tune1.gear_ratios }

/-- Springs upgrade stage (`upgrades.Platform?.Springs` is compared raw,
without trimming, in the source). -/
def springsStage (u : UpgradeSelection) (tune : TuneOutput) : TuneOutput :=
  let race := u "Platform" "Springs" = some "Race"
  let rally := ¬race ∧ u "Platform" "Springs" = some "Rally"
  { tune with
    spring_front :=
      if race then tune.spring_front + 50
      else if rally then tune.spring_front - 50
      else tune.spring_front
    spring_rear :=
      if race then tune.spring_rear + 50
      else if rally then tune.spring_rear - 50
      else tune.spring_rear
    ride_height_front := if rally then tune.ride_height_front + 3 else tune.ride_height_front
    ride_height_rear := if rally then tune.ride_height_rear + 3 else tune.ride_height_rear }

/-- Anti-roll-bar upgrade stage. -/
def arbStage (u : UpgradeSelection) (tune : TuneOutput) : TuneOutput :=
  let frontArb := getUpgradeString u "Platform" "Front ARB"
  let rearArb := getUpgradeString u "Platform" "Rear ARB"
  let multOf (s : String) : ℚ :=
    if s = "Street" then 1.05 else if s = "Sport" then 1.10 else if s = "Race" then 1.15 else 1.0
  { tune with
    arb_front :=
      if frontArb ≠ "" ∧ frontArb ≠ "Stock" then jsRound (tune.arb_front * multOf frontArb)
      else tune.arb_front
    arb_rear :=
      if rearArb ≠ "" ∧ rearArb ≠ "Stock" then jsRound (tune.arb_rear * multOf rearArb)
      else tune.arb_rear }

/-- Brakes upgrade stage (pressure only; bias is untouched here). -/
def brakesStage (u : UpgradeSelection) (tune : TuneOutput) : TuneOutput :=
  let b := getUpgradeString u "Platform" "Brakes"
  let delta : ℚ := if b = "Street" then 3 else if b = "Sport" then 6 else if b = "Race" then 10 else 0
  { tune with
    brake_pressure :=
      if b ≠ "" ∧ b ≠ "Stock" then clamp (tune.brake_pressure + delta) 80 140
      else tune.brake_pressure }

/-- Aero upgrade stage (`Aero['Rear Wing'] === 'Race'` is a raw comparison;
the Sport wing and the bumpers go through `getUpgradeString`). -/
def aeroStage (u : UpgradeSelection) (tune : TuneOutput) : TuneOutput :=
  let frontBumper := getUpgradeString u "Aero" "Front Bumper"
  let rearBumper := getUpgradeString u "Aero" "Rear Bumper"
  let rearWing := getUpgradeString u "Aero" "Rear Wing"
  { tune with
    downforce_front :=
      tune.downforce_front
        + (if frontBumper = "Sport" then 20 else 0)
        + (if frontBumper = "Race" then 40 else 0)
    downforce_rear :=
      tune.downforce_rear
        + (if u "Aero" "Rear Wing" = some "Race" then 50 else 0)
        + (if rearBumper = "Sport" then 15 else 0)
        + (if rearBumper = "Race" then 30 else 0)
        + (if rearWing = "Sport" then 20 else 0) }

/-- `a.toLowerCase()` (ASCII case mapping, which covers the engine's
catalog strings). -/
def jsToLower (s : String) : String := ⟨s.data.map Char.toLower⟩

/-- Does `hay` start with `needle`? -/
def listStartsWith : List Char → List Char → Bool
  | [], _ => true
  | _ :: _, [] => false
  | n :: ns, h :: hs => n = h && listStartsWith ns hs

/-- Substring search at every suffix of the haystack. -/
def jsIncludesAux (ns : List Char) : List Char → Bool
  | [] => listStartsWith ns []
  | h :: t => listStartsWith ns (h :: t) || jsIncludesAux ns t

/-- `hay.includes(needle)`: contiguous-substring test. -/
def jsIncludes (hay needle : String) : Bool :=
  jsIncludesAux needle.toList hay.toList

/-- Tire-compound upgrade stage: label override, then substring-keyed
pressure nudges, each clamped to [15, 40]. -/
def tiresStage (u : UpgradeSelection) (tune : TuneOutput) : TuneOutput :=
  let frontCompound := getUpgradeString u "Tires" "Front Compound"
  let rearCompound := getUpgradeString u "Tires" "Rear Compound"
  let chosenFront := if frontCompound ≠ "" ∧ frontCompound ≠ "Stock" then frontCompound else ""
  let chosenRear := if rearCompound ≠ "" ∧ rearCompound ≠ "Stock" then rearCompound else ""
  let chosen := chosenFront ≠ "" ∨ chosenRear ≠ ""
  let compound := jsToLower (if chosenRear ≠ "" then chosenRear else chosenFront)
  { tune with
    tire_compound :=
      if chosen then
        if chosenFront ≠ "" ∧ chosenRear ≠ "" then
          if chosenFront = chosenRear then chosenFront else "Mixed"
        else if chosenFront ≠ "" then chosenFront else chosenRear
      else tune.tire_compound
    tire_pressure_front :=
      if chosen then
        if jsIncludes compound "race" then clamp (tune.tire_pressure_front - 1) 15 40
        else if jsIncludes compound "rally" ∨ jsIncludes compound "offroad" then
          clamp (tune.tire_pressure_front - 2) 15 40
        else if jsIncludes compound "drift" then clamp (tune.tire_pressure_front + 1) 15 40
        else tune.tire_pressure_front
      else tune.tire_pressure_front
    tire_pressure_rear :=
      if chosen then
        if jsIncludes compound "race" then clamp (tune.tire_pressure_rear - 1) 15 40
        else if jsIncludes compound "rally" ∨ jsIncludes compound "offroad" then
          clamp (tune.tire_pressure_rear - 2) 15 40
        else if jsIncludes compound "drift" then clamp (tune.tire_pressure_rear - 1) 15 40
        else tune.tire_pressure_rear
      else tune.tire_pressure_rear }

/-- Differential upgrade stage: tier-keyed accel/decel deltas, clamped to
[0, 100]. -/
def diffStage (u : UpgradeSelection) (tune : TuneOutput) : TuneOutput :=
  let d := getUpgradeString u "Drivetrain" "Differential"
  let accelDelta : ℚ :=
    if d = "Sport" then 5 else if d = "Race" then 10
    else if d = "Rally" ∨ d = "Off-Road" then 6 else if d = "Drift" then 12 else 0
  let decelDelta : ℚ :=
    if d = "Sport" then 2 else if d = "Race" then 4
    else if d = "Rally" ∨ d = "Off-Road" then 3 else if d = "Drift" then 1 else 0
  { tune with
    differential_accel :=
      if d ≠ "" ∧ d ≠ "Stock" then clamp (tune.differential_accel + accelDelta) 0 100
      else tune.differential_accel
    differential_decel :=
      if d ≠ "" ∧ d ≠ "Stock" then clamp (tune.differential_decel + decelDelta) 0 100
      else tune.differential_decel }

/-- Aspiration stage: conversion-aspiration floors on `turbo_map`
(assignment to 1.0 outright in the anti-lag case, `max` floors otherwise). -/
def aspirationStage (u : UpgradeSelection) (tune : TuneOutput) : TuneOutput :=
  let convAsp := getUpgradeString u "Conversion" "Aspiration"
  let engAspLevel := getUpgradeString u "Engine" "Aspiration"
  let convLower := jsToLower convAsp
  { tune with
    turbo_map :=
      if convAsp ≠ "" ∧ convAsp ≠ "Stock" then
        if jsIncludes convLower "turbo" then
          if engAspLevel = "Race with Anti-lag" then 1.0 else max tune.turbo_map 0.9
        else if jsIncludes convLower "supercharger" then max tune.turbo_map 0.95
        else tune.turbo_map
      else tune.turbo_map }

/-- Everything `calculateTune` does before the final weather pass (the
weather argument is not read anywhere else). -/
def preTune (car : Car) (u : UpgradeSelection) (t : TuneType) : TuneOutput :=
  let eff := effectiveCar car u
  let tune := baseTune eff t
  let tune := gearCountStage eff u tune
  let tune := manualStage u tune
  let tune := springsStage u tune
  let tune := arbStage u tune
  let tune := brakesStage u tune
  let tune := aeroStage u tune
  let tune := tiresStage u tune
  let tune := diffStage u tune
  let tune := aspirationStage u tune
  tune

/-- `calculateTune`: the full pipeline, weather applied last. -/
def calculateTune (car : Car) (u : UpgradeSelection) (t : TuneType)
    (weather : WeatherPreset) : TuneOutput :=
  applyWeatherModifiers (preTune car u t) weather

/-! ## Shared lemmas about the pipeline -/

/-- Dry weather is the identity pass. -/
lemma calculateTune_dry (car : Car) (u : UpgradeSelection) (t : TuneType) :
    calculateTune car u t .Dry = preTune car u t := rfl

/-- The gear-ratio list of the finished tune comes from the manual-override
stage applied after gear-count normalization (no later stage touches it). -/
lemma calculateTune_gear_ratios (car : Car) (u : UpgradeSelection) (t : TuneType)
    (w : WeatherPreset) :
    (calculateTune car u t w).gear_ratios =
      (manualStage u (gearCountStage (effectiveCar car u) u
        (baseTune (effectiveCar car u) t))).gear_ratios := by
  cases w <;> rfl

/-- The manual stage either replaces the whole ratio list or keeps it. -/
lemma manualStage_gear_ratios (u : UpgradeSelection) (tn : TuneOutput) :
    (manualStage u tn).gear_ratios =
      (manualGearRatios u tn.gear_ratios.length).getD tn.gear_ratios := rfl

/-- If the very first gear override is missing or unparsable, the whole
manual collection fails. -/
lemma manualGearRatios_eq_none (u : UpgradeSelection) (L : ℕ) (hL : 1 ≤ L)
    (h1 : parseOptionalNumber (u "Tuning" (gearKey 1)) = none) :
    manualGearRatios u L = none := by
  obtain ⟨k, rfl⟩ : ∃ k, L = k + 1 := ⟨L - 1, by omega⟩
  unfold manualGearRatios manualGearRatios.go
  rw [h1]

/-- The synthesized extension has the requested length. -/
lemma extendGears_length (r : ℚ) (k : ℕ) : (extendGears r k).length = k := by
  induction k generalizing r with
  | zero => rfl
  | succ k ih => simp [extendGears, ih]

/-- Reshaping always produces exactly the target number of ratios. -/
lemma reshapeGears_length (base : List ℚ) (c : ℕ) : (reshapeGears base c).length = c := by
  unfold reshapeGears
  simp only [List.length_append, List.length_take, extendGears_length]
  omega

/-- After the gear-count stage the list length is the target count. -/
lemma gearCountStage_length (car : Car) (u : UpgradeSelection) (tn : TuneOutput) :
    (gearCountStage car u tn).gear_ratios.length = getTargetGearCount car u := by
  unfold gearCountStage
  dsimp only
  split
  · exact reshapeGears_length _ _
  · omega

/-- `round` of a rational in `[4, 10]` lies in `[4, 10]`. -/
lemma round_mem_of_mem {g : ℚ} (h4 : 4 ≤ g) (h10 : g ≤ 10) :
    (4 : ℤ) ≤ round g ∧ round g ≤ 10 := by
  rw [round_eq]
  constructor
  · exact Int.le_floor.2 (by push_cast; linarith)
  · have : ⌊g + 1 / 2⌋ < 11 := Int.floor_lt.2 (by push_cast; linarith)
    omega

/-- The fallthrough branch of target-gear-count resolution stays in `[4, 10]`. -/
lemma gearCountFallback_bounds (car : Car) (s : String) :
    4 ≤ gearCountFallback car s ∧ gearCountFallback car s ≤ 10 := by
  unfold gearCountFallback
  split
  · omega
  · cases car.gears with
    | some g =>
      dsimp only
      split
      · rename_i hg
        obtain ⟨hb1, hb2⟩ := round_mem_of_mem hg.1 hg.2
        omega
      · omega
    | none =>
      dsimp only
      omega

/-- The resolved target gear count is always between 4 and 10. -/
lemma getTargetGearCount_bounds (car : Car) (u : UpgradeSelection) :
    4 ≤ getTargetGearCount car u ∧ getTargetGearCount car u ≤ 10 := by
  unfold getTargetGearCount
  cases hm : raceMatch (getUpgradeString u "Drivetrain" "Transmission").toList with
  | some n =>
    simp only [hm]
    split
    · omega
    · exact gearCountFallback_bounds car _
  | none =>
    simp only [hm]
    exact gearCountFallback_bounds car _

/-- Every per-style base gear list is strictly decreasing. -/
lemma gear_base_chain (t : TuneType) : List.Chain' (· > ·) (gear_base t) := by
  cases t <;> norm_num [gear_base, List.chain'_cons]

/-- Reshaping a base gear list to any target count in `[4, 10]` yields a
strictly decreasing list (finite check over the 8 styles × 7 counts). -/
lemma reshapeGears_chain (t : TuneType) (c : ℕ) (h4 : 4 ≤ c) (h10 : c ≤ 10) :
    List.Chain' (· > ·) (reshapeGears (gear_base t) c) := by
  interval_cases c <;> cases t <;>
    norm_num [reshapeGears, gear_base, extendGears, round2, jsRound, round_eq,
      List.chain'_cons]

/-- **C1.** For every car and every tune style (and either weather), the
`gear_ratios` list produced by `calculateTune` with no manual `Tuning` gear
overrides is strictly decreasing, including ratios synthesized during
gear-count normalization (×0.88, 2-decimal rounding, 0.4 floor), for every
target gear count reachable from the inputs (4 to 10). -/
theorem calculateTune_gear_ratios_strictDecreasing (car : Car) (u : UpgradeSelection)
    (t : TuneType) (w : WeatherPreset)
    (h : ∀ i, 1 ≤ i → i ≤ 10 → parseOptionalNumber (u "Tuning" (gearKey i)) = none) :
    List.Chain' (· > ·) (calculateTune car u t w).gear_ratios := by
  rw [calculateTune_gear_ratios, manualStage_gear_ratios]
  have hb := getTargetGearCount_bounds (effectiveCar car u) u
  have hlen := gearCountStage_length (effectiveCar car u) u (baseTune (effectiveCar car u) t)
  rw [manualGearRatios_eq_none u _ (by omega) (h 1 le_rfl (by omega))]
  show List.Chain' (· > ·)
    (gearCountStage (effectiveCar car u) u (baseTune (effectiveCar car u) t)).gear_ratios
  unfold gearCountStage
  dsimp only
  split
  · exact reshapeGears_chain t _ hb.1 hb.2
  · exact gear_base_chain t

/-- A concrete car (the GT-R fixture from the test suite). -/
def carGTR : Car :=
  { manufacturer := "Nissan", model := "GT-R (R35)", year := 2017, pi := 800,
    drivetrain := .AWD, power_hp := 565, weight_lbs := 3865, engine_type := "V6",
    aspiration := "Twin Turbo", displacement_l := 3.8, gears := none,
    weight_distribution_front := none, top_speed_mph := none, torque_ftlb := none,
    raw := none }

/-- The empty upgrade selection (`{}`). -/
def uEmpty : UpgradeSelection := fun _ _ => none

/-- Witness for C1 at a concrete input. -/
theorem calculateTune_gear_ratios_strictDecreasing_witness :
    (∀ i, 1 ≤ i → i ≤ 10 → parseOptionalNumber (uEmpty "Tuning" (gearKey i)) = none) ∧
      List.Chain' (· > ·) (calculateTune carGTR uEmpty .Race .Dry).gear_ratios :=
  ⟨fun _ _ _ => rfl,
    calculateTune_gear_ratios_strictDecreasing carGTR uEmpty .Race .Dry (fun _ _ _ => rfl)⟩

/-! ## Tire pressures (C2) and the Wet/Dry comparison (C3) -/

/-- Clamping stays below the ceiling. -/
lemma clamp_le (v lo hi : ℚ) : clamp v lo hi ≤ hi := min_le_left _ _

/-- A lower bound below both the ceiling and the value survives clamping. -/
lemma le_clamp {v hi c : ℚ} (lo : ℚ) (hv : c ≤ v) (hhi : c ≤ hi) : c ≤ clamp v lo hi :=
  le_min hhi (hv.trans (le_max_right _ _))

/-- The front pressure out of `calculateTires` lies in `[25, 35]`. -/
lemma calculateTires_front_bounds (car : Car) (t : TuneType) :
    25 ≤ (calculateTires car t).tire_pressure_front ∧
      (calculateTires car t).tire_pressure_front ≤ 35 := by
  unfold calculateTires
  cases hd : car.drivetrain <;> cases t <;>
    simp only [hd, tiresBase, eq_self_iff_true, if_true, reduceCtorEq, if_false] <;>
    norm_num [clamp, min_def, max_def]

/-- The rear pressure out of `calculateTires` lies in `[21, 31]`. -/
lemma calculateTires_rear_bounds (car : Car) (t : TuneType) :
    21 ≤ (calculateTires car t).tire_pressure_rear ∧
      (calculateTires car t).tire_pressure_rear ≤ 31 := by
  unfold calculateTires
  cases hd : car.drivetrain <;> cases t <;>
    simp only [hd, tiresBase, eq_self_iff_true, if_true, reduceCtorEq, if_false] <;>
    norm_num [clamp, min_def, max_def]

/-- The compound stage keeps a front pressure in `[19, 40]` inside `[17, 40]`
(its nudges are at most −2/+1, re-clamped). -/
lemma tiresStage_front_bounds (u : UpgradeSelection) (tn : TuneOutput)
    (h1 : 19 ≤ tn.tire_pressure_front) (h2 : tn.tire_pressure_front ≤ 40) :
    17 ≤ (tiresStage u tn).tire_pressure_front ∧
      (tiresStage u tn).tire_pressure_front ≤ 40 := by
  unfold tiresStage
  dsimp only
  split_ifs
  all_goals
    first
      | exact ⟨by linarith, h2⟩
      | exact ⟨le_clamp 15 (by linarith) (by norm_num), clamp_le _ _ _⟩

/-- The compound stage keeps a rear pressure in `[19, 40]` inside `[17, 40]`. -/
lemma tiresStage_rear_bounds (u : UpgradeSelection) (tn : TuneOutput)
    (h1 : 19 ≤ tn.tire_pressure_rear) (h2 : tn.tire_pressure_rear ≤ 40) :
    17 ≤ (tiresStage u tn).tire_pressure_rear ∧
      (tiresStage u tn).tire_pressure_rear ≤ 40 := by
  unfold tiresStage
  dsimp only
  split_ifs
  all_goals
    first
      | exact ⟨by linarith, h2⟩
      | exact ⟨le_clamp 15 (by linarith) (by norm_num), clamp_le _ _ _⟩

/-- The pre-weather front pressure lies in `[17, 40]`. -/
lemma preTune_front_pressure_bounds (car : Car) (u : UpgradeSelection) (t : TuneType) :
    17 ≤ (preTune car u t).tire_pressure_front ∧
      (preTune car u t).tire_pressure_front ≤ 40 := by
  have hbase := calculateTires_front_bounds (effectiveCar car u) t
  have h := tiresStage_front_bounds u (baseTune (effectiveCar car u) t)
    (by exact le_trans (by norm_num) hbase.1) (le_trans hbase.2 (by norm_num))
  exact h

/-- The pre-weather rear pressure lies in `[17, 40]`. -/
lemma preTune_rear_pressure_bounds (car : Car) (u : UpgradeSelection) (t : TuneType) :
    17 ≤ (preTune car u t).tire_pressure_rear ∧
      (preTune car u t).tire_pressure_rear ≤ 40 := by
  have hbase := calculateTires_rear_bounds (effectiveCar car u) t
  have h := tiresStage_rear_bounds u (baseTune (effectiveCar car u) t)
    (by exact le_trans (by norm_num) hbase.1) (le_trans hbase.2 (by norm_num))
  exact h

/-- **C2.** For every car, upgrade selection, tune style and weather preset,
both tire pressures of `calculateTune` lie within `[15, 40]` — including
after the Wet modifier, which subtracts 2 psi without re-clamping. -/
theorem calculateTune_tire_pressures_in_range (car : Car) (u : UpgradeSelection)
    (t : TuneType) (w : WeatherPreset) :
    15 ≤ (calculateTune car u t w).tire_pressure_front ∧
      (calculateTune car u t w).tire_pressure_front ≤ 40 ∧
      15 ≤ (calculateTune car u t w).tire_pressure_rear ∧
      (calculateTune car u t w).tire_pressure_rear ≤ 40 := by
  have hf := preTune_front_pressure_bounds car u t
  have hr := preTune_rear_pressure_bounds car u t
  cases w with
  | Dry =>
    rw [calculateTune_dry]
    refine ⟨by linarith [hf.1], hf.2, by linarith [hr.1], hr.2⟩
  | Wet =>
    have e1 : (calculateTune car u t .Wet).tire_pressure_front =
        (preTune car u t).tire_pressure_front - 2 := rfl
    have e2 : (calculateTune car u t .Wet).tire_pressure_rear =
        (preTune car u t).tire_pressure_rear - 2 := rfl
    rw [e1, e2]
    refine ⟨by linarith [hf.1], by linarith [hf.2], by linarith [hr.1], by linarith [hr.2]⟩

/-- Style-table differential accel values are at least 15. -/
lemma diffAccelBase_ge (t : TuneType) : 15 ≤ diffAccelBase t := by
  cases t <;> norm_num [diffAccelBase]

/-- The differential-upgrade stage never pushes accel below 15 when it was
at least 15 (the tier deltas are non-negative and the clamp is to [0, 100]). -/
lemma diffStage_accel_ge (u : UpgradeSelection) (tn : TuneOutput)
    (h : 15 ≤ tn.differential_accel) :
    15 ≤ (diffStage u tn).differential_accel := by
  unfold diffStage
  dsimp only
  split
  · refine le_clamp 0 ?_ (by norm_num)
    split_ifs <;> linarith
  · exact h

/-- The pre-weather differential accel is at least 15. -/
lemma preTune_accel_ge (car : Car) (u : UpgradeSelection) (t : TuneType) :
    15 ≤ (preTune car u t).differential_accel := by
  have h : (preTune car u t).differential_accel =
      (diffStage u (baseTune (effectiveCar car u) t)).differential_accel := rfl
  rw [h]
  exact diffStage_accel_ge u _ (diffAccelBase_ge t)

/-- Style-table camber values are strictly negative. -/
lemma alignmentBase_camber_neg (t : TuneType) :
    (alignmentBase t).1 < 0 ∧ (alignmentBase t).2.1 < 0 := by
  cases t <;> norm_num [alignmentBase]

/-- **C3.** For identical car/upgrades/style, the Wet result (versus Dry)
has strictly smaller tire pressures and differential accel, strictly larger
camber magnitude (both cambers more negative), and strictly larger
downforce front and rear. -/
theorem calculateTune_wet_vs_dry_strict (car : Car) (u : UpgradeSelection) (t : TuneType) :
    (calculateTune car u t .Wet).tire_pressure_front <
        (calculateTune car u t .Dry).tire_pressure_front ∧
      (calculateTune car u t .Wet).tire_pressure_rear <
        (calculateTune car u t .Dry).tire_pressure_rear ∧
      (calculateTune car u t .Wet).differential_accel <
        (calculateTune car u t .Dry).differential_accel ∧
      |(calculateTune car u t .Dry).camber_front| <
        |(calculateTune car u t .Wet).camber_front| ∧
      (calculateTune car u t .Wet).camber_front < (calculateTune car u t .Dry).camber_front ∧
      |(calculateTune car u t .Dry).camber_rear| <
        |(calculateTune car u t .Wet).camber_rear| ∧
      (calculateTune car u t .Wet).camber_rear < (calculateTune car u t .Dry).camber_rear ∧
      (calculateTune car u t .Dry).downforce_front <
        (calculateTune car u t .Wet).downforce_front ∧
      (calculateTune car u t .Dry).downforce_rear <
        (calculateTune car u t .Wet).downforce_rear := by
  have haccel := preTune_accel_ge car u t
  have hcf : (calculateTune car u t .Dry).camber_front = (alignmentBase t).1 := rfl
  have hcr : (calculateTune car u t .Dry).camber_rear = (alignmentBase t).2.1 := rfl
  have hwf : (calculateTune car u t .Wet).camber_front = (alignmentBase t).1 - 0.3 := rfl
  have hwr : (calculateTune car u t .Wet).camber_rear = (alignmentBase t).2.1 - 0.3 := rfl
  have hneg := alignmentBase_camber_neg t
  have haw : (calculateTune car u t .Wet).differential_accel =
      max 10 ((preTune car u t).differential_accel - 10) := rfl
  have hda : (calculateTune car u t .Dry).differential_accel =
      (preTune car u t).differential_accel := rfl
  refine ⟨?_, ?_, ?_, ?_, ?_, ?_, ?_, ?_, ?_⟩
  · show (preTune car u t).tire_pressure_front - 2 < (preTune car u t).tire_pressure_front
    linarith
  · show (preTune car u t).tire_pressure_rear - 2 < (preTune car u t).tire_pressure_rear
    linarith
  · rw [haw, hda]
    exact max_lt (by linarith) (by linarith)
  · rw [hcf, hwf, abs_of_neg hneg.1, abs_of_neg (by linarith : (alignmentBase t).1 - 0.3 < 0)]
    linarith
  · rw [hcf, hwf]; linarith
  · rw [hcr, hwr, abs_of_neg hneg.2, abs_of_neg (by linarith : (alignmentBase t).2.1 - 0.3 < 0)]
    linarith
  · rw [hcr, hwr]; linarith
  · show (preTune car u t).downforce_front < (preTune car u t).downforce_front + 20
    linarith
  · show (preTune car u t).downforce_rear < (preTune car u t).downforce_rear + 30
    linarith

/-! ## Brake bias (C4), manual override (C5), AWD diff fields (C6) -/

/-- The drivetrain of the effective car depends only on the car's own
drivetrain and the swap selection (never on weight fields). -/
lemma effectiveCar_drivetrain (car : Car) (u : UpgradeSelection) :
    (effectiveCar car u).drivetrain =
      (if getUpgradeString u "Conversion" "Drivetrain Swap" = "RWD" then .RWD
       else if getUpgradeString u "Conversion" "Drivetrain Swap" = "FWD" then .FWD
       else if getUpgradeString u "Conversion" "Drivetrain Swap" = "AWD" then .AWD
       else if getUpgradeString u "Conversion" "Drivetrain Swap" = "4WD" then .FourWD
       else car.drivetrain) := by
  unfold effectiveCar
  dsimp only
  split <;> split_ifs <;> rfl

/-- The brake bias of `calculateBrakes` depends only on the style table and
the drivetrain: the pre-switch weight-distribution nudge is dead. -/
lemma calculateBrakes_bias (car : Car) (t : TuneType) :
    (calculateBrakes car t).brake_bias =
      (if car.drivetrain = .FWD then (brakesBase t).1 + 3
       else if car.drivetrain = .RWD then (brakesBase t).1 - 2
       else (brakesBase t).1) := rfl

/-- **C4.** `brake_bias` does not depend on `weight_distribution_front`:
for any two cars differing only in that field, `calculateTune` returns the
same brake bias (the distribution nudge is computed before the style switch
reassigns `bias`, so it has no effect). -/
theorem calculateTune_brake_bias_ignores_weight_distribution (car : Car)
    (wd1 wd2 : Option ℚ) (u : UpgradeSelection) (t : TuneType) (w : WeatherPreset) :
    (calculateTune { car with weight_distribution_front := wd1 } u t w).brake_bias =
      (calculateTune { car with weight_distribution_front := wd2 } u t w).brake_bias := by
  have h : ∀ wd, (calculateTune { car with weight_distribution_front := wd } u t w).brake_bias
      = (calculateBrakes (effectiveCar { car with weight_distribution_front := wd } u) t).brake_bias := by
    intro wd
    cases w <;> rfl
  rw [h, h, calculateBrakes_bias, calculateBrakes_bias,
    effectiveCar_drivetrain, effectiveCar_drivetrain]

/-- **C5.** Manual gear-ratio overrides are all-or-nothing: if
`Tuning['Gear N Ratio']` parses for every `N` up to the current gear count,
the whole list is replaced by the parsed values; if any single entry is
missing or unparsable, the computed list is returned unchanged. -/
theorem calculateTune_manual_gear_override_all_or_nothing (car : Car)
    (u : UpgradeSelection) (t : TuneType) (w : WeatherPreset) :
    (∀ rs, manualGearRatios u (getTargetGearCount (effectiveCar car u) u) = some rs →
        (calculateTune car u t w).gear_ratios = rs) ∧
      (manualGearRatios u (getTargetGearCount (effectiveCar car u) u) = none →
        (calculateTune car u t w).gear_ratios =
          (gearCountStage (effectiveCar car u) u
            (baseTune (effectiveCar car u) t)).gear_ratios) := by
  have hlen := gearCountStage_length (effectiveCar car u) u (baseTune (effectiveCar car u) t)
  constructor
  · intro rs hrs
    rw [calculateTune_gear_ratios, manualStage_gear_ratios, hlen, hrs]
    rfl
  · intro hnone
    rw [calculateTune_gear_ratios, manualStage_gear_ratios, hlen, hnone]
    rfl

/-- An upgrade selection that fills in all six manual gear ratios. -/
def uGears : UpgradeSelection := fun sec part =>
  if sec = "Tuning" ∧ (part = "Gear 1 Ratio" ∨ part = "Gear 2 Ratio" ∨
      part = "Gear 3 Ratio" ∨ part = "Gear 4 Ratio" ∨ part = "Gear 5 Ratio" ∨
      part = "Gear 6 Ratio") then some "3"
  else none

/-- Witness for C5 at a concrete input: all six overrides parse, so the
whole list is replaced. -/
theorem calculateTune_manual_gear_override_witness :
    manualGearRatios uGears (getTargetGearCount (effectiveCar carGTR uGears) uGears) =
        some [3, 3, 3, 3, 3, 3] ∧
      (calculateTune carGTR uGears .Road .Dry).gear_ratios = [3, 3, 3, 3, 3, 3] :=
  ⟨rfl,
    (calculateTune_manual_gear_override_all_or_nothing carGTR uGears .Road .Dry).1 _ rfl⟩

/-- The three AWD-only fields of the finished tune are those computed by
`calculateDifferential` on the effective car (no stage touches them). -/
lemma calculateTune_awd_fields (car : Car) (u : UpgradeSelection) (t : TuneType)
    (w : WeatherPreset) :
    (calculateTune car u t w).center_diff =
        (calculateDifferential (effectiveCar car u) t).center_diff ∧
      (calculateTune car u t w).front_diff =
        (calculateDifferential (effectiveCar car u) t).front_diff ∧
      (calculateTune car u t w).rear_diff =
        (calculateDifferential (effectiveCar car u) t).rear_diff := by
  cases w <;> exact ⟨rfl, rfl, rfl⟩

/-- **C6.** `center_diff`, `front_diff` and `rear_diff` are all present iff
the effective drivetrain is AWD or 4WD; for RWD/FWD they are entirely
absent (`none`), not merely zero. -/
theorem calculateTune_awd_diff_fields_iff (car : Car) (u : UpgradeSelection)
    (t : TuneType) (w : WeatherPreset) :
    ((calculateTune car u t w).center_diff ≠ none ↔
        ((effectiveCar car u).drivetrain = .AWD ∨ (effectiveCar car u).drivetrain = .FourWD)) ∧
      ((calculateTune car u t w).front_diff ≠ none ↔
        ((effectiveCar car u).drivetrain = .AWD ∨ (effectiveCar car u).drivetrain = .FourWD)) ∧
      ((calculateTune car u t w).rear_diff ≠ none ↔
        ((effectiveCar car u).drivetrain = .AWD ∨ (effectiveCar car u).drivetrain = .FourWD)) := by
  obtain ⟨h1, h2, h3⟩ := calculateTune_awd_fields car u t w
  rw [h1, h2, h3]
  unfold calculateDifferential
  dsimp only
  split_ifs with h <;> simp [h]

/-! ## Target-gear-count resolution (C7) -/

/-- Modelled from the spec (claim C7 wording, branch (c)): "else if the
car's native gears field is a finite number in [4,10], the target is *that
value*" — no rounding.  Spec-side definition, to be compared with the
source's `gearCountFallback`. -/
def specGearCountFallback (car : Car) (transmission : String) : ℚ :=
  if driftTest transmission.toList then 4
  else
    match car.gears with
    | some g => if 4 ≤ g ∧ g ≤ 10 then g else 6
    | none => 6

/-- Modelled from the spec (claim C7 wording): the resolution priority
(a) `Race: N Speed` with `N ∈ [4,10]` → `N`; (b) `Drift: 4 Speed` → 4;
(c) native gears in `[4,10]` → that value; (d) 6. -/
def specTargetGearCount (car : Car) (u : UpgradeSelection) : ℚ :=
  let transmission := getUpgradeString u "Drivetrain" "Transmission"
  match raceMatch transmission.toList with
  | some n => if 4 ≤ n ∧ n ≤ 10 then (n : ℚ) else specGearCountFallback car transmission
  | none => specGearCountFallback car transmission

/-- The amended branch (c): the native value is passed through `Math.round`
(as the source does). -/
def specGearCountFallbackAmended (car : Car) (transmission : String) : ℚ :=
  if driftTest transmission.toList then 4
  else
    match car.gears with
    | some g => if 4 ≤ g ∧ g ≤ 10 then jsRound g else 6
    | none => 6

/-- The amended C7 resolution order. -/
def specTargetGearCountAmended (car : Car) (u : UpgradeSelection) : ℚ :=
  let transmission := getUpgradeString u "Drivetrain" "Transmission"
  match raceMatch transmission.toList with
  | some n =>
    if 4 ≤ n ∧ n ≤ 10 then (n : ℚ) else specGearCountFallbackAmended car transmission
  | none => specGearCountFallbackAmended car transmission

/-- A car whose native gear count is the (legal `number`-typed) value 4.5. -/
def carHalfGears : Car := { carGTR with gears := some (9 / 2) }

/-- **C7 counterexample.** With native gears 4.5 and no transmission
upgrade, the source resolves the target to `Math.round(4.5) = 5`, not to
"that value" 4.5 as the claim's branch (c) states. -/
theorem targetGearCount_spec_counterexample :
    ((getTargetGearCount carHalfGears uEmpty : ℕ) : ℚ) ≠
      specTargetGearCount carHalfGears uEmpty := by
  have h1 : getTargetGearCount carHalfGears uEmpty =
      (if (4 : ℚ) ≤ 9 / 2 ∧ (9 / 2 : ℚ) ≤ 10 then ((round (9 / 2 : ℚ)).toNat) else 6) := rfl
  have h2 : specTargetGearCount carHalfGears uEmpty =
      (if (4 : ℚ) ≤ 9 / 2 ∧ (9 / 2 : ℚ) ≤ 10 then (9 / 2 : ℚ) else 6) := rfl
  rw [h1, h2, if_pos (by norm_num), if_pos (by norm_num)]
  have h3 : round ((9 : ℚ) / 2) = 5 := by norm_num [round_eq]
  rw [h3, show ((5 : ℤ).toNat : ℕ) = 5 from rfl]
  norm_num

/-- The amended fallback agrees with the source's fallback. -/
lemma gearCountFallback_amended (car : Car) (s : String) :
    ((gearCountFallback car s : ℕ) : ℚ) = specGearCountFallbackAmended car s := by
  unfold gearCountFallback specGearCountFallbackAmended
  split
  · norm_num
  · cases car.gears with
    | some g =>
      dsimp only
      split
      · rename_i hg
        obtain ⟨hb, -⟩ := round_mem_of_mem hg.1 hg.2
        have h' : ((round g).toNat : ℤ) = round g := Int.toNat_of_nonneg (by omega)
        unfold jsRound
        calc ((round g).toNat : ℚ) = (((round g).toNat : ℤ) : ℚ) := by norm_cast
          _ = ((round g : ℤ) : ℚ) := by rw [h']
      · norm_num
    | none => norm_num

/-- **C7 (amended).** The source's target-gear-count resolution follows the
claim's priority order with branch (c) rounding the native gear value to
the nearest integer. -/
theorem getTargetGearCount_amended (car : Car) (u : UpgradeSelection) :
    ((getTargetGearCount car u : ℕ) : ℚ) = specTargetGearCountAmended car u := by
  unfold getTargetGearCount specTargetGearCountAmended
  cases hm : raceMatch (getUpgradeString u "Drivetrain" "Transmission").toList with
  | some n =>
    simp only [hm]
    split
    · norm_num
    · exact gearCountFallback_amended car _
  | none =>
    simp only [hm]
    exact gearCountFallback_amended car _

/-! ## The effective car (C8) -/

/-- All fields other than `drivetrain` and `weight_lbs` agree. -/
def carFrameEq (a b : Car) : Prop :=
  a.manufacturer = b.manufacturer ∧ a.model = b.model ∧ a.year = b.year ∧
    a.pi = b.pi ∧ a.power_hp = b.power_hp ∧ a.engine_type = b.engine_type ∧
    a.aspiration = b.aspiration ∧ a.displacement_l = b.displacement_l ∧
    a.gears = b.gears ∧ a.weight_distribution_front = b.weight_distribution_front ∧
    a.top_speed_mph = b.top_speed_mph ∧ a.torque_ftlb = b.torque_ftlb ∧ a.raw = b.raw

/-- The drivetrain rule of C8: the effective drivetrain is the swap
selection when it is a valid drivetrain value, else the car's own. -/
def drivetrainRule (car : Car) (u : UpgradeSelection) : Prop :=
  (effectiveCar car u).drivetrain =
    (if getUpgradeString u "Conversion" "Drivetrain Swap" = "RWD" then .RWD
     else if getUpgradeString u "Conversion" "Drivetrain Swap" = "FWD" then .FWD
     else if getUpgradeString u "Conversion" "Drivetrain Swap" = "AWD" then .AWD
     else if getUpgradeString u "Conversion" "Drivetrain Swap" = "4WD" then .FourWD
     else car.drivetrain)

/-- The weight rule as the claim states it: the weight changes only when a
non-Stock `Platform`/`Weight Reduction` tier is selected, and then only to
the input weight scaled by 0.95/0.90/0.85 and rounded. -/
def weightRuleClaim (car : Car) (u : UpgradeSelection) : Prop :=
  (effectiveCar car u).weight_lbs ≠ car.weight_lbs →
    (getUpgradeString u "Platform" "Weight Reduction" ≠ "" ∧
        getUpgradeString u "Platform" "Weight Reduction" ≠ "Stock") ∧
      (effectiveCar car u).weight_lbs ∈
        [jsRound (car.weight_lbs * 0.95), jsRound (car.weight_lbs * 0.90),
          jsRound (car.weight_lbs * 0.85)]

/-- Claim C8 as stated, at an input. -/
def C8Claim (car : Car) (u : UpgradeSelection) : Prop :=
  carFrameEq (effectiveCar car u) car ∧ drivetrainRule car u ∧ weightRuleClaim car u

/-- A car with a fractional (but type-legal) weight. -/
def carFracWeight : Car := { carGTR with weight_lbs := 6001 / 2 }

/-- A selection with an unrecognized non-Stock weight-reduction tier. -/
def uUltra : UpgradeSelection := fun sec part =>
  if sec = "Platform" ∧ part = "Weight Reduction" then some "Ultra" else none

/-- **C8 counterexample.** With weight 3000.5 lbs and tier "Ultra"
(non-Stock but unrecognized), the source still rounds the weight (factor
1.0), producing 3001 — a changed weight that is not the input scaled by
0.95/0.90/0.85, contradicting the claim's weight rule. -/
theorem effectiveCar_claim_counterexample : ¬ C8Claim carFracWeight uUltra := by
  intro h
  obtain ⟨-, -, hw⟩ := h
  have hwl : (effectiveCar carFracWeight uUltra).weight_lbs = 3001 := by
    show jsRound ((6001 / 2 : ℚ) * 1.0) = 3001
    norm_num [jsRound, round_eq]
  have hcw : carFracWeight.weight_lbs = (6001 / 2 : ℚ) := rfl
  obtain ⟨-, hmem⟩ := hw (by rw [hwl, hcw]; norm_num)
  rw [hwl, hcw] at hmem
  have h95 : jsRound ((6001 / 2 : ℚ) * 0.95) = 2850 := by norm_num [jsRound, round_eq]
  have h90 : jsRound ((6001 / 2 : ℚ) * 0.90) = 2700 := by norm_num [jsRound, round_eq]
  have h85 : jsRound ((6001 / 2 : ℚ) * 0.85) = 2550 := by norm_num [jsRound, round_eq]
  rw [h95, h90, h85] at hmem
  norm_num at hmem

/-- The weight rule as amended: 0.95/0.90/0.85 for Street/Sport/Race,
factor 1.0 (but still rounded) for any other non-Stock value. -/
def weightRuleAmended (car : Car) (u : UpgradeSelection) : Prop :=
  (effectiveCar car u).weight_lbs =
    (if getUpgradeString u "Platform" "Weight Reduction" ≠ "" ∧
        getUpgradeString u "Platform" "Weight Reduction" ≠ "Stock" then
      jsRound (car.weight_lbs *
        (if getUpgradeString u "Platform" "Weight Reduction" = "Street" then 0.95
         else if getUpgradeString u "Platform" "Weight Reduction" = "Sport" then 0.90
         else if getUpgradeString u "Platform" "Weight Reduction" = "Race" then 0.85
         else 1.0))
     else car.weight_lbs)

/-- **C8 (amended).** The effective car differs from the input in at most
`drivetrain` and `weight_lbs`; the drivetrain follows the swap rule, and
the weight follows the tier factors 0.95/0.90/0.85 with factor 1.0 (still
rounded) for unrecognized non-Stock tiers.  (Purity of `calculateTune` with
respect to the caller's record is inherent to the functional embedding; the
field-wise frame conditions are the checkable content.) -/
theorem effectiveCar_frame_amended (car : Car) (u : UpgradeSelection) :
    carFrameEq (effectiveCar car u) car ∧ drivetrainRule car u ∧
      weightRuleAmended car u := by
  refine ⟨?_, effectiveCar_drivetrain car u, ?_⟩
  · unfold carFrameEq effectiveCar
    dsimp only
    split <;> split_ifs <;>
      exact ⟨rfl, rfl, rfl, rfl, rfl, rfl, rfl, rfl, rfl, rfl, rfl, rfl, rfl⟩
  · unfold weightRuleAmended effectiveCar
    dsimp only
    split <;> split_ifs <;> rfl

/-! ## Turbo-map floors (C9) and preload (C10) -/

/-- Style-table turbo-map bases never exceed 1. -/
lemma electronicsBase_turbo_le_one (t : TuneType) : (electronicsBase t).2.2.2 ≤ 1 := by
  cases t <;> norm_num [electronicsBase]

/-- **C9.** With a non-Stock `Conversion`/`Aspiration` selection of turbo
or supercharger type (weather Dry), `turbo_map` equals the max of the
style-table base and the selection's floor: 0.9 for turbo (1.0 with the
`Race with Anti-lag` engine aspiration), 0.95 for supercharger — floors,
never additive, so the rule never decreases `turbo_map`. -/
theorem calculateTune_turbo_map_floor (car : Car) (u : UpgradeSelection) (t : TuneType)
    (h1 : getUpgradeString u "Conversion" "Aspiration" ≠ "")
    (h2 : getUpgradeString u "Conversion" "Aspiration" ≠ "Stock")
    (h3 : jsIncludes (jsToLower (getUpgradeString u "Conversion" "Aspiration")) "turbo" = true ∨
      jsIncludes (jsToLower (getUpgradeString u "Conversion" "Aspiration")) "supercharger" = true) :
    (calculateTune car u t .Dry).turbo_map =
        max (electronicsBase t).2.2.2
          (if jsIncludes (jsToLower (getUpgradeString u "Conversion" "Aspiration")) "turbo" = true
            then
              (if getUpgradeString u "Engine" "Aspiration" = "Race with Anti-lag" then 1 else 0.9)
           else 0.95) ∧
      (electronicsBase t).2.2.2 ≤ (calculateTune car u t .Dry).turbo_map := by
  have e : (calculateTune car u t .Dry).turbo_map =
      (aspirationStage u (baseTune (effectiveCar car u) t)).turbo_map := rfl
  have ebase : (baseTune (effectiveCar car u) t).turbo_map = (electronicsBase t).2.2.2 := rfl
  rw [e]
  unfold aspirationStage
  dsimp only
  rw [if_pos ⟨h1, h2⟩]
  by_cases ht :
    jsIncludes (jsToLower (getUpgradeString u "Conversion" "Aspiration")) "turbo" = true
  · rw [if_pos ht, if_pos ht]
    by_cases ha : getUpgradeString u "Engine" "Aspiration" = "Race with Anti-lag"
    · rw [if_pos ha, if_pos ha, max_eq_right (electronicsBase_turbo_le_one t)]
      exact ⟨by norm_num, by
        calc (electronicsBase t).2.2.2 ≤ 1 := electronicsBase_turbo_le_one t
          _ = (1.0 : ℚ) := by norm_num⟩
    · rw [if_neg ha, if_neg ha, ebase]
      exact ⟨by norm_num, le_max_left _ _⟩
  · obtain h3 | h3 := h3
    · exact absurd h3 ht
    · rw [if_neg ht, if_neg ht, if_pos h3, ebase]
      exact ⟨by norm_num, le_max_left _ _⟩

/-- A selection with a turbo-type aspiration conversion. -/
def uAsp : UpgradeSelection := fun sec part =>
  if sec = "Conversion" ∧ part = "Aspiration" then some "Race Turbo" else none

/-- Witness for C9 at a concrete input. -/
theorem calculateTune_turbo_map_floor_witness :
    getUpgradeString uAsp "Conversion" "Aspiration" ≠ "" ∧
      getUpgradeString uAsp "Conversion" "Aspiration" ≠ "Stock" ∧
      (jsIncludes (jsToLower (getUpgradeString uAsp "Conversion" "Aspiration")) "turbo" = true ∨
        jsIncludes (jsToLower (getUpgradeString uAsp "Conversion" "Aspiration")) "supercharger"
          = true) ∧
      ((calculateTune carGTR uAsp .Race .Dry).turbo_map =
          max (electronicsBase .Race).2.2.2
            (if jsIncludes (jsToLower (getUpgradeString uAsp "Conversion" "Aspiration")) "turbo"
                = true then
                (if getUpgradeString uAsp "Engine" "Aspiration" = "Race with Anti-lag" then 1
                 else 0.9)
             else 0.95) ∧
        (electronicsBase .Race).2.2.2 ≤ (calculateTune carGTR uAsp .Race .Dry).turbo_map) :=
  ⟨by decide, by decide, Or.inl (by decide),
    calculateTune_turbo_map_floor carGTR uAsp .Race (by decide) (by decide)
      (Or.inl (by decide))⟩

/-- **C10.** `differential_preload` always equals
`round((style accel + style decel) / 2.5)` computed from the style table
only — it is never recomputed after the differential-upgrade deltas or the
Wet modifier change accel/decel, so on a Wet output the relation
`preload = round((accel + decel) / 2.5)` fails. -/
theorem calculateTune_preload_style_only :
    (∀ (car : Car) (u : UpgradeSelection) (t : TuneType) (w : WeatherPreset),
        (calculateTune car u t w).differential_preload =
          jsRound ((diffAccelBase t + diffDecelBase t) / 2.5)) ∧
      (calculateTune carGTR uEmpty .Road .Wet).differential_preload ≠
        jsRound (((calculateTune carGTR uEmpty .Road .Wet).differential_accel +
          (calculateTune carGTR uEmpty .Road .Wet).differential_decel) / 2.5) := by
  constructor
  · intro car u t w
    cases w <;> rfl
  · have hp : (calculateTune carGTR uEmpty .Road .Wet).differential_preload =
        jsRound (((50 : ℚ) + 20) / 2.5) := rfl
    have ha : (calculateTune carGTR uEmpty .Road .Wet).differential_accel =
        max 10 ((50 : ℚ) - 10) := rfl
    have hd : (calculateTune carGTR uEmpty .Road .Wet).differential_decel = (20 : ℚ) := rfl
    rw [hp, ha, hd]
    norm_num [jsRound, round_eq]

end FH5Tuner
